import Mathlib

/-!
Verification of the Clerk user-migration utility.

The source is a TypeScript program with two entry points: a migration
script (merge users with phone numbers, validate, submit to the Clerk
API with pacing and retry) and a cleanup script (delete all remote
users, aborting on the first failure).  External collaborators (the
`zod` validator outcome, the Clerk API, the filesystem audit log,
timers) are modelled as explicit data: the validator is an abstract
predicate, the remote API an oracle list of responses consumed one
call at a time, the audit log a list of entries in the driver state,
and sleeps are counted in the state.
-/

set_option autoImplicit false

namespace ClerkMigration

/-! ### Configuration parsing (src/index.ts lines 22-29) -/

/-- Value of a decimal digit run, most significant first. -/
def digitsToNat (ds : List Char) : Nat :=
  ds.foldl (fun a c => a * 10 + (c.toNat - 48)) 0

/-- JavaScript `parseInt(s)` with the default radix 10: skip leading
whitespace, read an optional sign, then the longest prefix of decimal
digits; `none` models `NaN` (no digits found).  Parsing stops at the
first non-digit character, so an underscore ends the number. -/
def jsParseInt (s : String) : Option Int :=
  let cs := s.data.dropWhile (fun c => c.isWhitespace)
  let signAndRest : Int × List Char :=
    match cs with
    | '-' :: t => (-1, t)
    | '+' :: t => (1, t)
    | _ => (1, cs)
  let ds := signAndRest.2.takeWhile (fun c => c.isDigit)
  if ds.isEmpty then none
  else some (signAndRest.1 * (digitsToNat ds : Int))

/-- `const DELAY = parseInt(process.env.DELAY_MS ?? `1_000`)`,
as a function of the `DELAY_MS` environment variable. -/
def DELAY (delayMsEnv : Option String) : Option Int :=
  jsParseInt (delayMsEnv.getD "1_000")

/-- `const RETRY_DELAY = parseInt(process.env.RETRY_DELAY_MS ?? `10_000`)`,
as a function of the `RETRY_DELAY_MS` environment variable. -/
def RETRY_DELAY (retryDelayMsEnv : Option String) : Option Int :=
  jsParseInt (retryDelayMsEnv.getD "10_000")

/-! ### Startup guards (src/index.ts lines 22-41, cleanup lines 182-194) -/

/-- Split a character list at every occurrence of `sep`,
mirroring JavaScript `String.prototype.split` on a one-character
separator (`"".split(sep)` gives `[""]`). -/
def splitCharList (sep : Char) : List Char → List (List Char)
  | [] => [[]]
  | c :: cs =>
    match splitCharList sep cs with
    | [] => if c = sep then [[], [c]] else [[c]]
    | h :: t => if c = sep then [] :: h :: t else (c :: h) :: t

/-- JavaScript `s.split("_")`. -/
def jsSplitUnderscore (s : String) : List String :=
  (splitCharList '_' s.data).map (fun cs => String.mk cs)

/-- `SECRET_KEY.split("_")[1]` — `none` models JavaScript `undefined`
when the credential has no second segment. -/
def secondSegment (s : String) : Option String :=
  (jsSplitUnderscore s).get? 1

/-- `const IMPORT_TO_DEV = process.env.IMPORT_TO_DEV_INSTANCE ?? "false"`. -/
def IMPORT_TO_DEV (importEnv : Option String) : String :=
  importEnv.getD "false"

/-- The migration script's startup checks (src/index.ts lines 31-41):
it throws when `CLERK_SECRET_KEY` is missing or empty (falsy), and
when the key's second underscore segment is not `"live"` while
`IMPORT_TO_DEV` is exactly `"false"`. -/
def migrationStartupThrows (secretKey : String) (importEnv : Option String) : Bool :=
  (secretKey == "") ||
    (!(secondSegment secretKey == some "live") && (IMPORT_TO_DEV importEnv == "false"))

/-- The cleanup script's startup checks: it throws when the key is
missing/empty or the key's second underscore segment IS `"live"`. -/
def cleanupStartupThrows (secretKey : String) : Bool :=
  (secretKey == "") || (secondSegment secretKey == some "live")

/-! ### Data model (src/index.ts lines 43-52, 136-149) -/

/-- A user record as described by `userSchema`. -/
structure User where
  userId : String
  email : String
  firstName : Option String := none
  lastName : Option String := none
  password : Option String := none
  phoneNumber : Option (List String) := none
deriving DecidableEq, Repr

/-- A JavaScript value in the `phone` field of an auxiliary record:
a number, a string, or a nullish value. -/
inductive JsPhone where
  | num (n : Int)
  | str (s : String)
  | nullish
deriving DecidableEq, Repr

/-- JavaScript truthiness of a `phone` value: `0`, `""` and
null/undefined are falsy. -/
def JsPhone.truthy : JsPhone → Bool
  | .num n => n != 0
  | .str s => s != ""
  | .nullish => false

/-- JavaScript `String(phone)` coercion. -/
def JsPhone.coerceToString : JsPhone → String
  | .num n => toString n
  | .str s => s
  | .nullish => "null"

/-- An auxiliary phone record `{ id, phone }`. -/
structure PhoneRecord where
  id : String
  phone : JsPhone
deriving DecidableEq, Repr

/-- The merge (src/index.ts lines 136-149): for each user, `find` the
first auxiliary record whose `id` equals the user's `userId`; if none
is found or its `phone` is falsy, pass the user through unchanged;
otherwise replace `phoneNumber` with the one-element list holding the
phone value coerced to string. -/
def parsedUsersWithPhoneNumbers (users : List User) (phones : List PhoneRecord) :
    List User :=
  users.map fun user =>
    match phones.find? (fun p => p.id == user.userId) with
    | none => user
    | some p =>
      if !p.phone.truthy then user
      else { user with phoneNumber := some [p.phone.coerceToString] }

/-- Written from the spec's words for the Record Merger, to be compared
with `parsedUsersWithPhoneNumbers`: lookup is by first-match semantics
on the id. -/
def specLookup (uid : String) : List PhoneRecord → Option PhoneRecord
  | [] => none
  | p :: ps => if p.id = uid then some p else specLookup uid ps

/-- Written from the spec's words: each output record is the input
record unchanged, except that if an auxiliary record with matching id
exists (first match wins) and has a truthy phone field, the output's
`phoneNumber` becomes a single-element sequence containing the phone
value coerced to string. -/
def specMergeOne (phones : List PhoneRecord) (u : User) : User :=
  match specLookup u.userId phones with
  | none => u
  | some p =>
    if p.phone.truthy then { u with phoneNumber := some [p.phone.coerceToString] }
    else u

/-- Written from the spec's words: a same-length, same-order map of
`specMergeOne` over the primary sequence. -/
def specMerge (users : List User) (phones : List PhoneRecord) : List User :=
  users.map (specMergeOne phones)

/-! ### Migration driver (src/index.ts lines 81-168)

The Clerk API is an oracle: a list of responses, one consumed per
`createUser` call.  `zod`'s `safeParse` outcome is an abstract
predicate `validate` on the record.  The driver state records the
counters, the audit-log entries, the `userId` of every sink call, and
the number of pacing (`cooldown`) and rate-limit
(`rateLimitCooldown`) sleeps. -/

/-- A response of the remote API to one `createUser` call: success, or
an error carrying an HTTP status. -/
inductive SinkResult where
  | created
  | errStatus (status : Nat)
deriving DecidableEq, Repr

/-- What produced an audit-log entry: a validation error (a thrown
`ZodError` has no `status` field) or a provider error with a status. -/
inductive ErrKind where
  | validation
  | provider (status : Nat)
deriving DecidableEq, Repr

/-- An audit-log entry `{ userId, ...error }`. -/
structure LogEntry where
  userId : String
  err : ErrKind
deriving DecidableEq, Repr

/-- Observable state of one migration run.  `sinkCalls` lists the
`userId` of every `createUser` call in order; `processedOrder` lists
the `userId` of every record the driver loop visited, in order (the
spinner is updated once per record). -/
structure MigState where
  migrated : Nat := 0
  alreadyExists : Nat := 0
  log : List LogEntry := []
  sinkCalls : List String := []
  processedOrder : List String := []
  pacingSleeps : Nat := 0
  retrySleeps : Nat := 0
deriving DecidableEq, Repr

/-- The all-zero state at process start. -/
def initState : MigState := {}

/-- `processUserToClerk` (src/index.ts lines 84-111).  The `try` body
runs `safeParse` and throws its error on failure (caught below, where
`error.status` matches neither 422 nor 429, so the record is logged);
otherwise it calls `createUser` — consuming the next oracle response —
and on success increments `migrated`.  In the `catch`: status 422 logs
`{userId, ...error}` and increments `alreadyExists`; status 429 sleeps
`RETRY_DELAY` and recursively re-attempts the same record (re-running
`safeParse`, which is deterministic); any other error is logged.
Returns the state and the remaining oracle. -/
def processUserToClerk (validate : User → Bool) (userData : User) :
    List SinkResult → MigState → MigState × List SinkResult
  | [], s =>
    if validate userData then (s, [])
    else ({ s with log := s.log ++ [⟨userData.userId, .validation⟩] }, [])
  | r :: rest, s =>
    if validate userData then
      match r with
      | .created =>
        ({ s with sinkCalls := s.sinkCalls ++ [userData.userId],
                  migrated := s.migrated + 1 }, rest)
      | .errStatus status =>
        if status = 422 then
          ({ s with sinkCalls := s.sinkCalls ++ [userData.userId],
                    log := s.log ++ [⟨userData.userId, .provider 422⟩],
                    alreadyExists := s.alreadyExists + 1 }, rest)
        else if status = 429 then
          processUserToClerk validate userData rest
            { s with sinkCalls := s.sinkCalls ++ [userData.userId],
                     retrySleeps := s.retrySleeps + 1 }
        else
          ({ s with sinkCalls := s.sinkCalls ++ [userData.userId],
                    log := s.log ++ [⟨userData.userId, .provider status⟩] }, rest)
    else ({ s with log := s.log ++ [⟨userData.userId, .validation⟩] }, r :: rest)

/-- The `for (const userData of offsetUsers)` loop in `main`
(src/index.ts lines 159-165): for each record, await `cooldown()` (one
pacing sleep), then `processUserToClerk`. -/
def mainLoop (validate : User → Bool) :
    List User → List SinkResult → MigState → MigState × List SinkResult
  | [], rs, s => (s, rs)
  | u :: us, rs, s =>
    let paced := { s with pacingSleeps := s.pacingSleeps + 1,
                          processedOrder := s.processedOrder ++ [u.userId] }
    let step := processUserToClerk validate u rs paced
    mainLoop validate us step.2 step.1

/-- `main` (src/index.ts lines 121-169) after the input files are
parsed: merge phone numbers, drop the first `OFFSET` records
(`Array.prototype.slice(OFFSET)` for a non-negative offset), and run
the loop from the all-zero state. -/
def migrationMain (validate : User → Bool) (users : List User)
    (phones : List PhoneRecord) (offset : Nat) (oracle : List SinkResult) :
    MigState × List SinkResult :=
  mainLoop validate ((parsedUsersWithPhoneNumbers users phones).drop offset)
    oracle initState

/-- The whole migration program: the startup guards run at module load,
before `main` reads any file or calls the network; if a guard throws,
no state is ever produced. -/
def migrationProgram (secretKey : String) (importEnv : Option String)
    (validate : User → Bool) (users : List User) (phones : List PhoneRecord)
    (offset : Nat) (oracle : List SinkResult) : Except String MigState :=
  if migrationStartupThrows secretKey importEnv then
    .error "startup guard threw"
  else
    .ok (migrationMain validate users phones offset oracle).1

/-! ### Cleanup driver (cleanup script, src/index.ts lines 205-223) -/

/-- The outcome the remote API gives one `deleteUser` call; errors
carry an abstract code. -/
inductive DelResult where
  | ok
  | err (e : Nat)
deriving DecidableEq, Repr

/-- A cleanup audit-log entry: `{userId, deleted: true}` on success,
`{userId, error, deleted: false}` on failure. -/
structure CleanupLogEntry where
  userId : String
  deleted : Bool
  err : Option Nat
deriving DecidableEq, Repr

/-- State of one cleanup run: `usersDeleted`, the audit log, and the
error that aborted the run, if any (a rethrown deletion error). -/
structure CleanupState where
  usersDeleted : Nat := 0
  log : List CleanupLogEntry := []
  aborted : Option Nat := none
deriving DecidableEq, Repr

/-- The cleanup `main` loop: each remote user (paired with the
outcome the API gives its deletion) is deleted in turn; success
increments the counter and logs `{userId, deleted: true}`; failure
logs `{userId, error, deleted: false}` and rethrows, ending the run
with no further iterations. -/
def cleanupMain : List (String × DelResult) → CleanupState → CleanupState
  | [], s => s
  | (uid, .ok) :: rest, s =>
    cleanupMain rest
      { s with usersDeleted := s.usersDeleted + 1,
               log := s.log ++ [⟨uid, true, none⟩] }
  | (uid, .err e) :: _, s =>
    { s with log := s.log ++ [⟨uid, false, some e⟩], aborted := some e }

/-! ## Unfolding lemmas for the per-record processor -/

/-- An invalid record is logged and nothing else happens: no response
is consumed, no counter moves. -/
theorem processUserToClerk_invalid (validate : User → Bool) (u : User)
    (h : validate u = false) (rs : List SinkResult) (s : MigState) :
    processUserToClerk validate u rs s =
      ({ s with log := s.log ++ [⟨u.userId, .validation⟩] }, rs) := by
  cases rs <;> simp [processUserToClerk, h]

/-- A success response increments `migrated` and consumes one response. -/
theorem processUserToClerk_created (validate : User → Bool) (u : User)
    (h : validate u = true) (rest : List SinkResult) (s : MigState) :
    processUserToClerk validate u (.created :: rest) s =
      ({ s with migrated := s.migrated + 1,
                sinkCalls := s.sinkCalls ++ [u.userId] }, rest) := by
  simp [processUserToClerk, h]

/-- A 422 response increments `alreadyExists`, logs the record, and
consumes one response. -/
theorem processUserToClerk_422 (validate : User → Bool) (u : User)
    (h : validate u = true) (rest : List SinkResult) (s : MigState) :
    processUserToClerk validate u (.errStatus 422 :: rest) s =
      ({ s with alreadyExists := s.alreadyExists + 1,
                log := s.log ++ [⟨u.userId, .provider 422⟩],
                sinkCalls := s.sinkCalls ++ [u.userId] }, rest) := by
  simp [processUserToClerk, h]

/-- A 429 response sleeps once (`retrySleeps`) and re-attempts the
same record on the remaining oracle; no counter, no log entry, no
pacing sleep. -/
theorem processUserToClerk_429 (validate : User → Bool) (u : User)
    (h : validate u = true) (rest : List SinkResult) (s : MigState) :
    processUserToClerk validate u (.errStatus 429 :: rest) s =
      processUserToClerk validate u rest
        { s with sinkCalls := s.sinkCalls ++ [u.userId],
                 retrySleeps := s.retrySleeps + 1 } := by
  simp [processUserToClerk, h]

/-- Any other error response logs the record and consumes one
response; no counter moves. -/
theorem processUserToClerk_otherError (validate : User → Bool) (u : User)
    (h : validate u = true) (status : Nat) (h422 : status ≠ 422)
    (h429 : status ≠ 429) (rest : List SinkResult) (s : MigState) :
    processUserToClerk validate u (.errStatus status :: rest) s =
      ({ s with log := s.log ++ [⟨u.userId, .provider status⟩],
                sinkCalls := s.sinkCalls ++ [u.userId] }, rest) := by
  simp [processUserToClerk, h, h422, h429]

/-- A run of `k` rate-limit responses followed by a success: the record
is re-attempted until created, `migrated` grows by exactly one, the
audit log is untouched, and `k` cooldown sleeps happen. -/
theorem processUserToClerk_retry_created (validate : User → Bool) (u : User)
    (h : validate u = true) :
    ∀ (k : Nat) (s : MigState) (rest : List SinkResult),
      processUserToClerk validate u
          (List.replicate k (.errStatus 429) ++ .created :: rest) s =
        ({ s with migrated := s.migrated + 1,
                  sinkCalls := s.sinkCalls ++ List.replicate (k + 1) u.userId,
                  retrySleeps := s.retrySleeps + k }, rest)
  | 0, s, rest => by
    simp [processUserToClerk_created validate u h]
  | k + 1, s, rest => by
    rw [List.replicate_succ, List.cons_append, processUserToClerk_429 validate u h,
      processUserToClerk_retry_created validate u h k]
    simp [List.replicate_succ, List.append_assoc, Nat.add_assoc, Nat.add_comm]
    exact ⟨by rw [show 1 + (k + 1) = k + 1 + 1 from by omega, List.replicate_succ,
      List.replicate_succ], by omega⟩

/-- A run of `k` rate-limit responses followed by a non-422, non-429
error: the record is re-attempted until the error, then logged; no
counter moves. -/
theorem processUserToClerk_retry_otherError (validate : User → Bool) (u : User)
    (h : validate u = true) (status : Nat) (h422 : status ≠ 422)
    (h429 : status ≠ 429) :
    ∀ (k : Nat) (s : MigState) (rest : List SinkResult),
      processUserToClerk validate u
          (List.replicate k (.errStatus 429) ++ .errStatus status :: rest) s =
        ({ s with log := s.log ++ [⟨u.userId, .provider status⟩],
                  sinkCalls := s.sinkCalls ++ List.replicate (k + 1) u.userId,
                  retrySleeps := s.retrySleeps + k }, rest)
  | 0, s, rest => by
    simp [processUserToClerk_otherError validate u h status h422 h429]
  | k + 1, s, rest => by
    rw [List.replicate_succ, List.cons_append, processUserToClerk_429 validate u h,
      processUserToClerk_retry_otherError validate u h status h422 h429 k]
    simp [List.replicate_succ, List.append_assoc, Nat.add_assoc, Nat.add_comm]
    exact ⟨by rw [show 1 + (k + 1) = k + 1 + 1 from by omega, List.replicate_succ,
      List.replicate_succ], by omega⟩

/-- A prefix of successful deletions is folded into the counter and
one success log entry per user, after which the run continues. -/
theorem cleanupMain_append_ok :
    ∀ (pre : List (String × DelResult)) (tail : List (String × DelResult))
      (s : CleanupState), (∀ x ∈ pre, x.2 = DelResult.ok) →
      cleanupMain (pre ++ tail) s =
        cleanupMain tail
          { s with usersDeleted := s.usersDeleted + pre.length,
                   log := s.log ++ (pre.map fun x => ⟨x.1, true, none⟩) }
  | [], tail, s, _ => by simp [cleanupMain]
  | (uid, r) :: pre, tail, s, h => by
    have hr : r = DelResult.ok := h (uid, r) (by simp)
    subst hr
    rw [List.cons_append,
      show cleanupMain ((uid, DelResult.ok) :: (pre ++ tail)) s =
        cleanupMain (pre ++ tail)
          { s with usersDeleted := s.usersDeleted + 1,
                   log := s.log ++ [⟨uid, true, none⟩] } from rfl,
      cleanupMain_append_ok pre tail _ (fun x hx => h x (by simp [hx]))]
    simp [List.append_assoc, Nat.add_assoc, Nat.add_comm, Nat.add_left_comm]

/-- Processing one record changes the state only by: adding `dm ≤ 1`
to `migrated` and `da` to `alreadyExists` with `dm + da ≤ 1`, appending
log entries that all carry the record's `userId`, appending `n` sink
calls for the record, and adding `dr` cooldown sleeps.  In particular
`processedOrder` and `pacingSleeps` never change. -/
theorem processUserToClerk_delta (validate : User → Bool) (u : User) :
    ∀ (rs : List SinkResult) (s : MigState),
      ∃ (n dm da dr : Nat) (es : List LogEntry),
        (processUserToClerk validate u rs s).1 =
          { s with migrated := s.migrated + dm,
                   alreadyExists := s.alreadyExists + da,
                   log := s.log ++ es,
                   sinkCalls := s.sinkCalls ++ List.replicate n u.userId,
                   retrySleeps := s.retrySleeps + dr } ∧
        (∀ e ∈ es, e.userId = u.userId) ∧ dm + da ≤ 1 := by
  intro rs
  induction rs with
  | nil =>
    intro s
    by_cases hv : validate u = true
    · refine ⟨0, 0, 0, 0, [], ?_, by simp, by omega⟩
      simp [processUserToClerk, hv]
    · have hv' : validate u = false := by simpa using hv
      refine ⟨0, 0, 0, 0, [⟨u.userId, .validation⟩], ?_, by simp, by omega⟩
      rw [processUserToClerk_invalid validate u hv']
      simp
  | cons r rest ih =>
    intro s
    by_cases hv : validate u = true
    · cases r with
      | created =>
        refine ⟨1, 1, 0, 0, [], ?_, by simp, by omega⟩
        rw [processUserToClerk_created validate u hv]
        simp
      | errStatus status =>
        by_cases h422 : status = 422
        · subst h422
          refine ⟨1, 0, 1, 0, [⟨u.userId, .provider 422⟩], ?_, by simp, by omega⟩
          rw [processUserToClerk_422 validate u hv]
          simp
        · by_cases h429 : status = 429
          · subst h429
            rw [processUserToClerk_429 validate u hv]
            obtain ⟨n, dm, da, dr, es, heq, hes, hle⟩ := ih _
            refine ⟨n + 1, dm, da, dr + 1, es, ?_, hes, hle⟩
            rw [heq]
            simp [List.replicate_succ, List.append_assoc, Nat.add_assoc,
              Nat.add_comm]
            omega
          · refine ⟨1, 0, 0, 0, [⟨u.userId, .provider status⟩], ?_, by simp,
              by omega⟩
            rw [processUserToClerk_otherError validate u hv status h422 h429]
            simp
    · have hv' : validate u = false := by simpa using hv
      refine ⟨0, 0, 0, 0, [⟨u.userId, .validation⟩], ?_, by simp, by omega⟩
      rw [processUserToClerk_invalid validate u hv']
      simp

/-- Running the loop over `us` changes the state only by: visiting
exactly the records of `us` in order (`processedOrder`), one pacing
sleep per record, sink calls and log entries only for records of `us`,
and a counter growth bounded by the number of records. -/
theorem mainLoop_delta (validate : User → Bool) :
    ∀ (us : List User) (rs : List SinkResult) (s : MigState),
      ∃ (calls : List String) (es : List LogEntry) (dm da dr : Nat),
        (mainLoop validate us rs s).1 =
          { s with migrated := s.migrated + dm,
                   alreadyExists := s.alreadyExists + da,
                   log := s.log ++ es,
                   sinkCalls := s.sinkCalls ++ calls,
                   processedOrder := s.processedOrder ++ us.map User.userId,
                   pacingSleeps := s.pacingSleeps + us.length,
                   retrySleeps := s.retrySleeps + dr } ∧
        (∀ e ∈ es, e.userId ∈ us.map User.userId) ∧
        (∀ c ∈ calls, c ∈ us.map User.userId) ∧
        dm + da ≤ us.length := by
  intro us
  induction us with
  | nil =>
    intro rs s
    refine ⟨[], [], 0, 0, 0, ?_, by simp, by simp, by omega⟩
    simp [mainLoop]
  | cons u us ih =>
    intro rs s
    obtain ⟨n, dm1, da1, dr1, es1, heq1, hes1, hle1⟩ :=
      processUserToClerk_delta validate u rs
        { s with processedOrder := s.processedOrder ++ [u.userId],
                 pacingSleeps := s.pacingSleeps + 1 }
    obtain ⟨calls2, es2, dm2, da2, dr2, heq2, hes2, hcalls2, hle2⟩ :=
      ih (processUserToClerk validate u rs
            { s with processedOrder := s.processedOrder ++ [u.userId],
                     pacingSleeps := s.pacingSleeps + 1 }).2
         (processUserToClerk validate u rs
            { s with processedOrder := s.processedOrder ++ [u.userId],
                     pacingSleeps := s.pacingSleeps + 1 }).1
    refine ⟨List.replicate n u.userId ++ calls2, es1 ++ es2, dm1 + dm2,
      da1 + da2, dr1 + dr2, ?_, ?_, ?_, by simp; omega⟩
    · rw [show mainLoop validate (u :: us) rs s =
          mainLoop validate us
            (processUserToClerk validate u rs
              { s with processedOrder := s.processedOrder ++ [u.userId],
                       pacingSleeps := s.pacingSleeps + 1 }).2
            (processUserToClerk validate u rs
              { s with processedOrder := s.processedOrder ++ [u.userId],
                       pacingSleeps := s.pacingSleeps + 1 }).1 from rfl,
        heq2, heq1]
      simp [List.append_assoc, Nat.add_assoc, Nat.add_comm, Nat.add_left_comm]
    · intro e he
      rcases List.mem_append.mp he with h1 | h2
      · simp [hes1 e h1]
      · simpa using Or.inr (hes2 e h2)
    · intro c hc
      rcases List.mem_append.mp hc with h1 | h2
      · simp [List.eq_of_mem_replicate h1]
      · simpa using Or.inr (hcalls2 c h2)

/-! ## Claims -/

/-- C1: the claim states that with `DELAY_MS` and `RETRY_DELAY_MS`
unset, `DELAY = 1000` and `RETRY_DELAY = 10000`.  The code's defaults
are the strings `"1_000"` and `"10_000"`, and JavaScript `parseInt`
stops at the underscore, so the parsed values are actually 1 and 10
milliseconds: the defaults the author wrote (digit-group underscores)
and the spec documents are not what the code computes. -/
theorem C1_default_delays_are_1_and_10 :
    DELAY none = some 1 ∧ RETRY_DELAY none = some 10 ∧
    ¬ DELAY none = some 1000 ∧ ¬ RETRY_DELAY none = some 10000 := by
  decide

/-- C2 counterexample: a production credential (second underscore
segment `"live"`) with `IMPORT_TO_DEV_INSTANCE` unset does NOT make
migration startup throw — the guard throws only for non-production
credentials, so the migration program runs. -/
theorem C2_counterexample :
    secondSegment "sk_live_abc" = some "live" ∧
    migrationStartupThrows "sk_live_abc" none = false ∧
    migrationProgram "sk_live_abc" none (fun _ => true) [] [] 0 [] =
      .ok initState :=
  ⟨rfl, rfl, rfl⟩

/-- C2 amended: for every credential whose second underscore-delimited
segment is NOT `"live"` (a development credential), if
`IMPORT_TO_DEV_INSTANCE` is unset, migration startup throws, and the
program fails before producing any run state (no file I/O, no network
call). -/
theorem C2_dev_credential_startup_throws (key : String)
    (h : secondSegment key ≠ some "live")
    (validate : User → Bool) (users : List User) (phones : List PhoneRecord)
    (offset : Nat) (oracle : List SinkResult) :
    migrationStartupThrows key none = true ∧
    migrationProgram key none validate users phones offset oracle =
      .error "startup guard threw" := by
  have hthrow : migrationStartupThrows key none = true := by
    simp [migrationStartupThrows, IMPORT_TO_DEV, h]
  exact ⟨hthrow, by simp [migrationProgram, hthrow]⟩

/-- C2 witness: the amended theorem applied to the dev credential
`"sk_test_abc"`. -/
theorem C2_witness :
    migrationStartupThrows "sk_test_abc" none = true ∧
    migrationProgram "sk_test_abc" none (fun _ => true) [] [] 0 [] =
      .error "startup guard threw" :=
  C2_dev_credential_startup_throws "sk_test_abc" (by decide) (fun _ => true) [] [] 0 []

/-- C3 counterexample: with the non-production credential
`"sk_test_abc"` and `IMPORT_TO_DEV_INSTANCE = "yes"` — a value that is
not the string `"true"` — the migration tool does NOT refuse to start,
because the guard compares against `"false"`, not against `"true"`. -/
theorem C3_counterexample :
    secondSegment "sk_test_abc" ≠ some "live" ∧
    "yes" ≠ "true" ∧
    migrationStartupThrows "sk_test_abc" (some "yes") = false := by
  decide

/-- C3 amended: the migration tool refuses to start if and only if the
credential is empty (missing), or the credential is non-production and
`IMPORT_TO_DEV_INSTANCE` — defaulting to `"false"` when unset — is
exactly the string `"false"`. -/
theorem C3_startup_guard_iff (key : String) (importEnv : Option String) :
    migrationStartupThrows key importEnv = true ↔
      (key = "" ∨
        (secondSegment key ≠ some "live" ∧ IMPORT_TO_DEV importEnv = "false")) := by
  simp [migrationStartupThrows, Bool.or_eq_true, Bool.and_eq_true]

/-- C4: on a 429 error the driver sleeps the rate-limit cooldown and
re-attempts the same record on the remaining responses, with no pacing
sleep, no counter change and no audit entry for the 429 itself (the
only state change carried into the re-attempt is the recorded sink
call and one cooldown sleep); and when `k` 429s are followed by a
success, `migrated` grows by exactly one and the audit log is exactly
the one from before the record. -/
theorem C4_rate_limit_retry (validate : User → Bool) (u : User)
    (h : validate u = true) (s : MigState) :
    (∀ rest : List SinkResult,
      processUserToClerk validate u (.errStatus 429 :: rest) s =
        processUserToClerk validate u rest
          { s with sinkCalls := s.sinkCalls ++ [u.userId],
                   retrySleeps := s.retrySleeps + 1 }) ∧
    (∀ (k : Nat) (rest : List SinkResult),
      processUserToClerk validate u
          (List.replicate k (.errStatus 429) ++ .created :: rest) s =
        ({ s with migrated := s.migrated + 1,
                  sinkCalls := s.sinkCalls ++ List.replicate (k + 1) u.userId,
                  retrySleeps := s.retrySleeps + k }, rest)) :=
  ⟨fun rest => processUserToClerk_429 validate u h rest s,
   fun k rest => processUserToClerk_retry_created validate u h k s rest⟩

/-- C4 witness: one 429 followed by a success on a concrete record,
from the all-zero state. -/
theorem C4_witness :
    processUserToClerk (fun _ => true) { userId := "r1", email := "r1@x.c" }
        (.errStatus 429 :: .created :: []) initState =
      processUserToClerk (fun _ => true) { userId := "r1", email := "r1@x.c" }
        [.created] { initState with sinkCalls := ["r1"], retrySleeps := 1 } ∧
    processUserToClerk (fun _ => true) { userId := "r1", email := "r1@x.c" }
        (List.replicate 1 (.errStatus 429) ++ .created :: []) initState =
      ({ initState with migrated := 1, sinkCalls := ["r1", "r1"],
                        retrySleeps := 1 }, []) := by
  have h := C4_rate_limit_retry (fun _ => true)
    { userId := "r1", email := "r1@x.c" } rfl initState
  exact ⟨h.1 [.created], h.2 1 []⟩

/-- C5: a 422 error makes the driver increment `alreadyExists` by
exactly one, append one audit entry with the record's `userId` and the
error, leave `migrated` alone, consume exactly one response (no
retry), and continue the loop with the next record. -/
theorem C5_conflict_counted (validate : User → Bool) (u : User)
    (h : validate u = true) (us : List User) (rest : List SinkResult)
    (s : MigState) :
    mainLoop validate (u :: us) (.errStatus 422 :: rest) s =
      mainLoop validate us rest
        { s with alreadyExists := s.alreadyExists + 1,
                 log := s.log ++ [⟨u.userId, .provider 422⟩],
                 sinkCalls := s.sinkCalls ++ [u.userId],
                 processedOrder := s.processedOrder ++ [u.userId],
                 pacingSleeps := s.pacingSleeps + 1 } := by
  simp [mainLoop, processUserToClerk, h]

/-- C5 witness: the spec's `dup1` scenario — a single record whose
submission yields 422 ends the run with `alreadyExists = 1`,
`migrated = 0`, and one audit entry for `dup1`. -/
theorem C5_witness :
    mainLoop (fun _ => true) [{ userId := "dup1", email := "d@x.c" }]
        [.errStatus 422] initState =
      mainLoop (fun _ => true) [] []
        { initState with alreadyExists := 1,
                         log := [⟨"dup1", .provider 422⟩],
                         sinkCalls := ["dup1"],
                         processedOrder := ["dup1"],
                         pacingSleeps := 1 } :=
  C5_conflict_counted (fun _ => true) { userId := "dup1", email := "d@x.c" }
    rfl [] [] initState

/-- C6: a record that fails schema validation is logged and skipped:
no response is consumed (so no create call reaches the sink), no sink
call is recorded, neither counter moves, one audit entry is appended,
and the loop continues with the next record. -/
theorem C6_validation_failure_skips (validate : User → Bool) (u : User)
    (h : validate u = false) (us : List User) (rs : List SinkResult)
    (s : MigState) :
    mainLoop validate (u :: us) rs s =
      mainLoop validate us rs
        { s with log := s.log ++ [⟨u.userId, .validation⟩],
                 processedOrder := s.processedOrder ++ [u.userId],
                 pacingSleeps := s.pacingSleeps + 1 } := by
  simp [mainLoop,
    processUserToClerk_invalid validate u h rs
      { s with processedOrder := s.processedOrder ++ [u.userId],
               pacingSleeps := s.pacingSleeps + 1 }]

/-- C6 witness: an invalid record followed by a valid one — the
invalid record is logged without touching the oracle, and the next
record is still processed (here: created). -/
theorem C6_witness :
    mainLoop (fun u => u.userId != "bad") [{ userId := "bad", email := "" },
        { userId := "ok", email := "o@x.c" }] [.created] initState =
      mainLoop (fun u => u.userId != "bad") [{ userId := "ok", email := "o@x.c" }]
        [.created]
        { initState with log := [⟨"bad", .validation⟩],
                         processedOrder := ["bad"], pacingSleeps := 1 } :=
  C6_validation_failure_skips (fun u => u.userId != "bad")
    { userId := "bad", email := "" } rfl
    [{ userId := "ok", email := "o@x.c" }] [.created] initState

/-- C7: the Record Merger of the code equals the merge described by
the spec — same length and order as the primary sequence, each output
record unchanged unless the first auxiliary record with matching id
has a truthy phone field, in which case only `phoneNumber` changes to
the single-element list holding the phone value coerced to string. -/
theorem C7_merge_refines_spec (users : List User) (phones : List PhoneRecord) :
    parsedUsersWithPhoneNumbers users phones = specMerge users phones ∧
    (parsedUsersWithPhoneNumbers users phones).length = users.length := by
  have hfind : ∀ uid : String,
      phones.find? (fun p => p.id == uid) = specLookup uid phones := by
    intro uid
    induction phones with
    | nil => simp [specLookup]
    | cons p ps ih =>
      by_cases hp : p.id = uid
      · rw [List.find?_cons_of_pos _ (by simp [hp])]
        simp [specLookup, hp]
      · rw [List.find?_cons_of_neg _ (by simp [hp])]
        simp [specLookup, hp, ih]
  constructor
  · unfold parsedUsersWithPhoneNumbers specMerge
    refine List.map_congr_left ?_
    intro u _
    rw [hfind u.userId]
    unfold specMergeOne
    cases specLookup u.userId phones with
    | none => rfl
    | some p => cases hp : p.phone.truthy <;> simp [hp]
  · simp [parsedUsersWithPhoneNumbers]

/-- C8: the migration run visits exactly the merged records from index
`offset` on — `processedOrder` is their ids in order, with one pacing
sleep each — every sink call and every audit entry belongs to one of
those records, and the slice is exactly indices `offset + i` of the
merged list.  Records before the offset therefore receive no sink
calls and no audit entries. -/
theorem C8_offset_slice (validate : User → Bool) (users : List User)
    (phones : List PhoneRecord) (offset : Nat) (oracle : List SinkResult) :
    ((migrationMain validate users phones offset oracle).1).processedOrder =
      ((parsedUsersWithPhoneNumbers users phones).drop offset).map User.userId ∧
    ((migrationMain validate users phones offset oracle).1).pacingSleeps =
      ((parsedUsersWithPhoneNumbers users phones).drop offset).length ∧
    (∀ c ∈ ((migrationMain validate users phones offset oracle).1).sinkCalls,
      c ∈ ((parsedUsersWithPhoneNumbers users phones).drop offset).map User.userId) ∧
    (∀ e ∈ ((migrationMain validate users phones offset oracle).1).log,
      e.userId ∈
        ((parsedUsersWithPhoneNumbers users phones).drop offset).map User.userId) ∧
    (∀ i : Nat, ((parsedUsersWithPhoneNumbers users phones).drop offset)[i]? =
      (parsedUsersWithPhoneNumbers users phones)[offset + i]?) := by
  obtain ⟨calls, es, dm, da, dr, heq, hes, hcalls, _⟩ :=
    mainLoop_delta validate ((parsedUsersWithPhoneNumbers users phones).drop offset)
      oracle initState
  have hmain : (migrationMain validate users phones offset oracle).1 =
      (mainLoop validate ((parsedUsersWithPhoneNumbers users phones).drop offset)
        oracle initState).1 := rfl
  rw [hmain, heq]
  refine ⟨by simp [initState], by simp [initState], ?_, ?_, ?_⟩
  · intro c hc
    exact hcalls c (by simpa [initState] using hc)
  · intro e he
    exact hes e (by simpa [initState] using he)
  · intro i
    exact List.getElem?_drop _ offset i

/-- C8 witness: three records with offset 1 — the driver visits
exactly the last two, and a recorded sink call (here for `"u1"`)
always belongs to the sliced records. -/
theorem C8_witness :
    ((migrationMain (fun _ => true)
        [{ userId := "u0", email := "e0" }, { userId := "u1", email := "e1" },
         { userId := "u2", email := "e2" }] [] 1
        [SinkResult.created, SinkResult.created]).1).processedOrder =
      ((parsedUsersWithPhoneNumbers
        [{ userId := "u0", email := "e0" }, { userId := "u1", email := "e1" },
         { userId := "u2", email := "e2" }] []).drop 1).map User.userId ∧
    "u1" ∈ ((parsedUsersWithPhoneNumbers
        [{ userId := "u0", email := "e0" }, { userId := "u1", email := "e1" },
         { userId := "u2", email := "e2" }] []).drop 1).map User.userId := by
  have h := C8_offset_slice (fun _ => true)
    [{ userId := "u0", email := "e0" }, { userId := "u1", email := "e1" },
     { userId := "u2", email := "e2" }] [] 1
    [SinkResult.created, SinkResult.created]
  exact ⟨h.1, h.2.2.1 "u1" (by decide)⟩

/-- C9: the cleanup driver deletes sequentially and logs every
outcome; when all deletions before some user succeed and that user's
deletion fails, the run has counted exactly the earlier users, the log
holds one success entry per earlier user followed by the failure
entry, no later user is touched, and the error propagates (`aborted`);
a run whose deletions all succeed logs one success entry per user and
counts them all. -/
theorem C9_cleanup_fail_fast (pre : List (String × DelResult)) (uid : String)
    (e : Nat) (post : List (String × DelResult)) (s : CleanupState)
    (h : ∀ x ∈ pre, x.2 = DelResult.ok) :
    cleanupMain (pre ++ (uid, DelResult.err e) :: post) s =
      { s with usersDeleted := s.usersDeleted + pre.length,
               log := s.log ++
                 (pre.map fun x => ⟨x.1, true, none⟩) ++ [⟨uid, false, some e⟩],
               aborted := some e } ∧
    (∀ allOk : List (String × DelResult), (∀ x ∈ allOk, x.2 = DelResult.ok) →
      cleanupMain allOk s =
        { s with usersDeleted := s.usersDeleted + allOk.length,
                 log := s.log ++ (allOk.map fun x => ⟨x.1, true, none⟩) }) := by
  constructor
  · rw [cleanupMain_append_ok pre _ s h]
    simp [cleanupMain, List.append_assoc]
  · intro allOk hOk
    rw [show allOk = allOk ++ [] from by simp, cleanupMain_append_ok allOk [] s hOk]
    simp [cleanupMain]

/-- C9 witness: user `"a"` deletes fine, user `"b"` fails with error 7,
user `"c"` is never touched; the log holds both outcomes and the run
aborts with the error. -/
theorem C9_witness :
    cleanupMain [("a", DelResult.ok), ("b", DelResult.err 7), ("c", DelResult.ok)]
        {} =
      { usersDeleted := 1,
        log := [⟨"a", true, none⟩, ⟨"b", false, some 7⟩],
        aborted := some 7 } := by
  have h := C9_cleanup_fail_fast [("a", DelResult.ok)] "b" 7 [("c", DelResult.ok)]
    {} (by simp)
  simpa using h.1

/-- C10: counters are monotone and grow by at most one per processed
record; a validation failure increments neither counter; a terminal
provider error other than 422 (after any number of 429 retries)
increments neither counter; and over a whole run `migrated +
alreadyExists` never exceeds the number of records processed. -/
theorem C10_counter_invariant (validate : User → Bool) (u : User)
    (rs : List SinkResult) (s : MigState) (us : List User) :
    (s.migrated ≤ ((processUserToClerk validate u rs s).1).migrated ∧
     s.alreadyExists ≤ ((processUserToClerk validate u rs s).1).alreadyExists ∧
     ((processUserToClerk validate u rs s).1).migrated +
        ((processUserToClerk validate u rs s).1).alreadyExists ≤
       s.migrated + s.alreadyExists + 1) ∧
    (validate u = false →
      ((processUserToClerk validate u rs s).1).migrated = s.migrated ∧
      ((processUserToClerk validate u rs s).1).alreadyExists = s.alreadyExists) ∧
    (∀ (k status : Nat) (rest : List SinkResult), status ≠ 422 → status ≠ 429 →
      ((processUserToClerk validate u
          (List.replicate k (.errStatus 429) ++ .errStatus status :: rest) s).1).migrated
          = s.migrated ∧
      ((processUserToClerk validate u
          (List.replicate k (.errStatus 429) ++ .errStatus status :: rest) s).1).alreadyExists
          = s.alreadyExists) ∧
    (((mainLoop validate us rs s).1).migrated +
        ((mainLoop validate us rs s).1).alreadyExists ≤
      s.migrated + s.alreadyExists + us.length) := by
  refine ⟨?_, ?_, ?_, ?_⟩
  · obtain ⟨n, dm, da, dr, es, heq, -, hle⟩ :=
      processUserToClerk_delta validate u rs s
    rw [heq]
    simp
    omega
  · intro hv
    rw [processUserToClerk_invalid validate u hv]
    exact ⟨rfl, rfl⟩
  · intro k status rest h422 h429
    by_cases hv : validate u = true
    · rw [processUserToClerk_retry_otherError validate u hv status h422 h429 k]
      exact ⟨rfl, rfl⟩
    · have hv' : validate u = false := by simpa using hv
      rw [processUserToClerk_invalid validate u hv']
      exact ⟨rfl, rfl⟩
  · obtain ⟨calls, es, dm, da, dr, heq, -, -, hle⟩ :=
      mainLoop_delta validate us rs s
    rw [heq]
    simp
    omega

/-- C10 witness: with a concrete invalid record and a concrete
non-422 terminal error, neither counter moves. -/
theorem C10_witness :
    ((processUserToClerk (fun v => v.userId != "bad")
        { userId := "bad", email := "" } [.created] initState).1).migrated =
      initState.migrated ∧
    ((processUserToClerk (fun v => v.userId != "bad")
        { userId := "bad", email := "" }
        (List.replicate 0 (.errStatus 429) ++ .errStatus 500 :: []) initState).1).alreadyExists =
      initState.alreadyExists := by
  have h := C10_counter_invariant (fun v => v.userId != "bad")
    { userId := "bad", email := "" } [.created] initState []
  exact ⟨(h.2.1 rfl).1, (h.2.2.1 0 500 [] (by decide) (by decide)).2⟩

end ClerkMigration
